import Mathlib

/-
  Verification development for the RooProxyPy reverse proxy (src/main.py).

  The embedding models the request-transformation and relay core of the
  program: JSON bodies are modelled as an inductive value type, Python
  dicts as insertion-ordered association lists, the two dialect handlers
  as functions from a parsed body and an upstream environment to a
  response outcome, a list of connection lifecycle events and the body
  sent upstream (if any).  Exceptions raised by Python operations
  (TypeError on unhashable membership tests, AttributeError on
  body.get applied to a non-dict) are modelled with an Except monad.
-/

set_option maxHeartbeats 1000000

/-- JSON values, as produced by parsing a request body.  Numbers are
modelled as integers; no claim depends on numeric semantics beyond
truthiness. -/
inductive JVal where
  | jnull
  | jbool (b : Bool)
  | jnum (n : Int)
  | jstr (s : String)
  | jarr (elems : List JVal)
  | jobj (fields : List (String × JVal))

/-- A Python dict with string keys, insertion ordered. -/
abbrev Obj := List (String × JVal)

/-- Python exceptions that the modelled code can raise. -/
inductive PyErr where
  | typeError
  | attributeError
deriving DecidableEq

/-- Python dict assignment d[k] = v: replaces the value of an existing
key in place, otherwise appends the new key at the end. -/
def setKV {β : Type} : List (String × β) → String → β → List (String × β)
  | [], k, v => [(k, v)]
  | (k0, v0) :: rest, k, v =>
    if k0 = k then (k, v) :: rest else (k0, v0) :: setKV rest k v

/-- Python dict read d.get(k) / d[k]: the value of the first (unique)
matching key. -/
def getKV {β : Type} : List (String × β) → String → Option β
  | [], _ => none
  | (k0, v0) :: rest, k => if k0 = k then some v0 else getKV rest k

/-- body.get(k): None when the key is absent. -/
def dictGet (fields : Obj) (k : String) : JVal :=
  (getKV fields k).getD .jnull

/-- Python truthiness of a JSON value. -/
def pyTruthy : JVal → Bool
  | .jnull => false
  | .jbool b => b
  | .jnum n => !(n == 0)
  | .jstr s => !(s == "")
  | .jarr xs => !xs.isEmpty
  | .jobj fs => !fs.isEmpty

/-- Whether a JSON value is hashable in Python (lists and dicts are not);
membership tests such as model not in ANTHROPIC_MODEL_MAP raise
TypeError on unhashable values. -/
def hashable : JVal → Bool
  | .jarr _ => false
  | .jobj _ => false
  | _ => true

/-- Python test v is True: only the boolean True. -/
def isPyTrue : JVal → Bool
  | .jbool b => b
  | _ => false

/-- Whether a JSON value is a Python dict. -/
def isObj : JVal → Bool
  | .jobj _ => true
  | _ => false

/-- Python str() of the values that can reach the rejection message.
Unhashable values (jarr, jobj) never reach str() in the modelled
handlers because the membership test raises TypeError first; their
rendering here is arbitrary. -/
def pyStr : JVal → String
  | .jnull => "None"
  | .jbool true => "True"
  | .jbool false => "False"
  | .jnum n => toString n
  | .jstr s => s
  | .jarr _ => "<list>"
  | .jobj _ => "<dict>"

/-- A lowercase hexadecimal digit. -/
def hexDigit (n : Nat) : Char :=
  Char.ofNat (if n < 10 then 48 + n else 87 + n)

/-- Four lowercase hexadecimal digits, as in a JSON \u escape. -/
def hex4 (n : Nat) : String :=
  String.mk [hexDigit (n / 4096 % 16), hexDigit (n / 256 % 16),
             hexDigit (n / 16 % 16), hexDigit (n % 16)]

/-- json.dumps escaping of one character (default ensure_ascii mode:
quote, backslash, control characters and all non-ASCII are escaped,
astral characters as a surrogate pair). -/
def jsonEscapeChar (c : Char) : String :=
  if c.toNat = 34 then "\\\""
  else if c.toNat = 92 then "\\\\"
  else if c.toNat = 8 then "\\b"
  else if c.toNat = 9 then "\\t"
  else if c.toNat = 10 then "\\n"
  else if c.toNat = 12 then "\\f"
  else if c.toNat = 13 then "\\r"
  else if c.toNat < 32 ∨ c.toNat > 126 then
    if c.toNat < 65536 then "\\u" ++ hex4 c.toNat
    else "\\u" ++ hex4 (55296 + (c.toNat - 65536) / 1024)
         ++ "\\u" ++ hex4 (56320 + (c.toNat - 65536) % 1024)
  else String.singleton c

/-- json.dumps escaping of a string body. -/
def jsonEscape (s : String) : String :=
  String.join (s.data.map jsonEscapeChar)

/-- A single-quote character, written by code point. -/
def singleQuote : String := String.singleton (Char.ofNat 39)

/-- The message interpolated by the handler for an unmatched model. -/
def modelNotFoundMsg (m : JVal) : String :=
  "Model " ++ singleQuote ++ pyStr m ++ singleQuote ++ " not found in ANTHROPIC_MODEL_MAP"

/-- json.dumps of the rejection payload (default separators). -/
def modelNotFoundBody (m : JVal) : String :=
  "\x7b\"error\": \"" ++ jsonEscape (modelNotFoundMsg m) ++ "\"\x7d"

/-- The model mapping table from src/main.py (commented-out entries of
the source are not part of the mapping). -/
def ANTHROPIC_MODEL_MAP : List (String × String) :=
  [("claude-haiku-4-5-20251001", "anthropic/claude-haiku-4.5"),
   ("claude-opus-4-1-20250805", "anthropic/claude-opus-4.1"),
   ("claude-opus-4-20250514", "anthropic/claude-opus-4"),
   ("claude-opus-4-5-20251101", "anthropic/claude-opus-4.5"),
   ("claude-opus-4-6", "anthropic/claude-opus-4.6"),
   ("claude-sonnet-4-20250514", "anthropic/claude-sonnet-4"),
   ("claude-sonnet-4-5", "anthropic/claude-sonnet-4.5")]

/-- Lookup in the model mapping table. -/
def mapLookup (s : String) : Option String :=
  getKV ANTHROPIC_MODEL_MAP s

/-- Configuration flag from src/main.py. -/
def ENABLE_WEB_SEARCH : Bool := true

/-- Type tag of the configured web search tool. -/
def webSearchType : String := "web_search_20250305"

/-- The configured tool object from src/main.py. -/
def ZENMUX_WEB_SEARCH_TOOL : JVal :=
  .jobj [("type", .jstr webSearchType), ("name", .jstr "web_search")]

/-- Whether a JSON value equals a given Python string. -/
def isStrEq (v : JVal) (s : String) : Bool :=
  match v with
  | .jstr t => t == s
  | _ => false

/-- The set comprehension over tool entries followed by the membership
test of the configured tool type: collects t.get("type") for every dict
entry t (raising TypeError if such a value is unhashable) and reports
whether the configured type is among them. -/
def scanToolTypes : List JVal → Except PyErr Bool
  | [] => .ok false
  | t :: rest =>
    match t with
    | .jobj f =>
      if hashable (dictGet f "type") then
        match scanToolTypes rest with
        | .error e => .error e
        | .ok b => .ok (isStrEq (dictGet f "type") webSearchType || b)
      else .error .typeError
    | _ => scanToolTypes rest

/-- tools = body.get("tools", []) followed by the non-list guard that
replaces a non-list value with []. -/
def toolsOf (fields : Obj) : List JVal :=
  match getKV fields "tools" with
  | some (.jarr xs) => xs
  | _ => []

/-- The tool injection step of modify_anthropic_body (lines 109-118):
when enabled, append the configured tool unless an existing dict entry
already carries its type. -/
def injectTools (fields : Obj) : Except PyErr Obj :=
  if ENABLE_WEB_SEARCH then
    match scanToolTypes (toolsOf fields) with
    | .error e => .error e
    | .ok true => .ok fields
    | .ok false =>
      .ok (setKV fields "tools" (.jarr (toolsOf fields ++ [ZENMUX_WEB_SEARCH_TOOL])))
  else .ok fields

/-- modify_anthropic_body (lines 95-120): non-dict bodies are returned
unchanged with no rejection signal; otherwise the model field is looked
up in the mapping table (the membership test raises TypeError on an
unhashable value); an unmatched model is returned as the second
component; on a match the model is rewritten and the tool injected. -/
def modify_anthropic_body : JVal → Except PyErr (JVal × JVal)
  | .jobj fields =>
    match dictGet fields "model" with
    | .jarr _ => .error .typeError
    | .jobj _ => .error .typeError
    | .jstr s =>
      match mapLookup s with
      | some target =>
        match injectTools (setKV fields "model" (.jstr target)) with
        | .error e => .error e
        | .ok fields2 => .ok (.jobj fields2, .jnull)
      | none => .ok (.jobj fields, .jstr s)
    | m => .ok (.jobj fields, m)
  | body => .ok (body, .jnull)

/-- stream_generator (lines 122-150), with the upstream stream given as
the chunks successfully read followed by an optional read error: each
chunk is yielded as read; a read error appends one final chunk holding
its textual description. -/
def stream_generator : List String → Option String → List String
  | [], none => []
  | [], some e => [e]
  | c :: rest, err => c :: stream_generator rest err

/-- The hop-by-hop header names stripped by both sanitizers. -/
def EXCLUDED_HEADERS : List String :=
  ["host", "content-length", "connection", "accept-encoding"]

/-- ASCII lowercasing of a character, by code point. -/
def lowerChar (c : Char) : Char :=
  if 65 <= c.toNat ∧ c.toNat <= 90 then Char.ofNat (c.toNat + 32) else c

/-- Lowercasing of a header name (header names are ASCII). -/
def asciiLower (s : String) : String :=
  String.mk (s.data.map lowerChar)

/-- Whether a header name is stripped (lowercased membership test). -/
def isExcluded (n : String) : Bool :=
  EXCLUDED_HEADERS.contains (asciiLower n)

/-- get_clean_headers (lines 74-83): drop excluded headers; when the
fixed credential is set (non-empty), stamp both authorization and
x-api-key. -/
def get_clean_headers (hs : List (String × String)) (apiKey : String) :
    List (String × String) :=
  if apiKey ≠ "" then
    setKV (setKV (hs.filter fun p => !isExcluded p.1)
                 "authorization" ("Bearer " ++ apiKey))
          "x-api-key" apiKey
  else hs.filter fun p => !isExcluded p.1

/-- The inline header preparation of proxy_all (lines 280-285): same
filter, but only authorization is stamped. -/
def proxy_req_headers (hs : List (String × String)) (apiKey : String) :
    List (String × String) :=
  if apiKey ≠ "" then
    setKV (hs.filter fun p => !isExcluded p.1)
          "authorization" ("Bearer " ++ apiKey)
  else hs.filter fun p => !isExcluded p.1

/-- The outbound header mapping of handle_chat_completions (line 158). -/
def chat_outbound_headers (hs : List (String × String)) (apiKey : String) :
    List (String × String) :=
  get_clean_headers hs apiKey

/-- The outbound header mapping of handle_anthropic_messages (line 199). -/
def anthropic_outbound_headers (hs : List (String × String)) (apiKey : String) :
    List (String × String) :=
  get_clean_headers hs apiKey

/-- The injected usage patch value (line 170). -/
def usagePatch : JVal := .jobj [("include_usage", .jbool true)]

/-- The body rewrite of handle_chat_completions (lines 169-171): inject
stream_options when stream is exactly True and the key is absent. -/
def chat_patch_fields (fields : Obj) : Obj :=
  if isPyTrue (dictGet fields "stream") && (getKV fields "stream_options").isNone then
    setKV fields "stream_options" usagePatch
  else fields

/-- Behaviour of the upstream for one exchange: whether the connection
and send succeed, the status line, the chunk sequence of a streaming
response with an optional mid-stream read error, and the result of a
buffered read. -/
structure UpstreamEnv where
  connectOk : Bool
  connectErr : String
  status : Nat
  chunks : List String
  streamErr : Option String
  readOk : Bool
  content : String
  readErr : String

/-- Connection lifecycle events of one exchange: creation of the httpx
client and its aclose. -/
inductive REv where
  | openConn
  | closeConn
deriving DecidableEq

/-- The response returned to the caller. -/
inductive HResp where
  | reject (status : Nat) (body : String)
  | errorResp (status : Nat) (body : String)
  | streamResp (status : Nat) (chunks : List String)
  | bufferedResp (status : Nat) (body : String)
  | crash (e : PyErr)

/-- Observable outcome of a handler run: the response, the connection
lifecycle events, and the outbound body of the upstream request if one
was attempted. -/
structure HOut where
  resp : HResp
  events : List REv
  sent : Option JVal

/-- handle_chat_completions (lines 154-191).  A parse failure yields
body = {}; reading the model field of a non-dict body raises before the
client is created; otherwise the usage patch is applied, the client is
opened, and either the send fails (close, 502) or the stream is relayed
with the client closed by the background task when the relay ends. -/
def handle_chat_completions (parsed : Option JVal) (env : UpstreamEnv) : HOut :=
  match parsed.getD (.jobj []) with
  | .jobj fields =>
    if env.connectOk then
      ⟨.streamResp env.status (stream_generator env.chunks env.streamErr),
       [.openConn, .closeConn], some (.jobj (chat_patch_fields fields))⟩
    else
      ⟨.errorResp 502 ("Connection Error: " ++ env.connectErr),
       [.openConn, .closeConn], some (.jobj (chat_patch_fields fields))⟩
  | _ => ⟨.crash .attributeError, [], none⟩

/-- handle_anthropic_messages (lines 195-258).  The body is transformed;
a truthy unmatched model yields a local 400 with no client created; a
non-dict transformed body raises at the model log read before the client
is created; otherwise the client is opened and the exchange proceeds in
streaming or buffered mode, the client being closed exactly once on
every path (background task for streaming, explicit aclose otherwise,
the except branch on failure). -/
def handle_anthropic_messages (parsed : Option JVal) (env : UpstreamEnv) : HOut :=
  match modify_anthropic_body (parsed.getD (.jobj [])) with
  | .error e => ⟨.crash e, [], none⟩
  | .ok (body2, unmatched) =>
    if pyTruthy unmatched then
      ⟨.reject 400 (modelNotFoundBody unmatched), [], none⟩
    else
      match body2 with
      | .jobj fields =>
        if env.connectOk then
          if isPyTrue (dictGet fields "stream") then
            ⟨.streamResp env.status (stream_generator env.chunks env.streamErr),
             [.openConn, .closeConn], some (.jobj fields)⟩
          else if env.readOk then
            ⟨.bufferedResp env.status env.content,
             [.openConn, .closeConn], some (.jobj fields)⟩
          else
            ⟨.errorResp 502 ("Anthropic Proxy Error: " ++ env.readErr),
             [.openConn, .closeConn], some (.jobj fields)⟩
        else
          ⟨.errorResp 502 ("Anthropic Proxy Error: " ++ env.connectErr),
           [.openConn, .closeConn], some (.jobj fields)⟩
      | _ => ⟨.crash .attributeError, [], none⟩

/-- proxy_all (lines 262-319), reduced to its connection lifecycle and
error shape: the client is opened, the exchange either completes
buffered or fails, and the client is closed on both paths. -/
def proxy_all (env : UpstreamEnv) : HResp × List REv :=
  if env.connectOk then
    if env.readOk then
      (.bufferedResp env.status env.content, [.openConn, .closeConn])
    else
      (.errorResp 502 ("Proxy Error: " ++ env.readErr), [.openConn, .closeConn])
  else
    (.errorResp 502 ("Proxy Error: " ++ env.connectErr), [.openConn, .closeConn])

/-- An environment where the upstream behaves normally. -/
def okEnv : UpstreamEnv :=
  ⟨true, "", 200, [], none, true, "ok", ""⟩

/-- An environment where establishing the connection or sending raises
with the given description. -/
def mkConnFail (e : String) : UpstreamEnv :=
  ⟨false, e, 0, [], none, true, "", ""⟩

theorem getKV_setKV_self {β : Type} (l : List (String × β)) (k : String) (v : β) :
    getKV (setKV l k v) k = some v := by
  induction l with
  | nil => simp [setKV, getKV]
  | cons p rest ih =>
    obtain ⟨k0, v0⟩ := p
    by_cases h : k0 = k
    · simp [setKV, getKV, h]
    · simp [setKV, getKV, h, ih]

theorem getKV_setKV_ne {β : Type} (l : List (String × β)) (k k' : String) (v : β)
    (h : k' ≠ k) : getKV (setKV l k v) k' = getKV l k' := by
  induction l with
  | nil => simp [setKV, getKV, Ne.symm h]
  | cons p rest ih =>
    obtain ⟨k0, v0⟩ := p
    by_cases h0 : k0 = k
    · subst h0
      simp [setKV, getKV, Ne.symm h]
    · simp [setKV, getKV, h0, ih]

theorem mem_setKV {β : Type} (l : List (String × β)) (k : String) (v : β)
    (p : String × β) (hp : p ∈ setKV l k v) : p ∈ l ∨ p = (k, v) := by
  induction l with
  | nil => simpa [setKV] using hp
  | cons q rest ih =>
    obtain ⟨k0, v0⟩ := q
    by_cases h0 : k0 = k
    · simp only [setKV, if_pos h0, List.mem_cons] at hp
      rcases hp with hp | hp
      · exact Or.inr hp
      · exact Or.inl (List.mem_cons_of_mem _ hp)
    · simp only [setKV, if_neg h0, List.mem_cons] at hp
      rcases hp with hp | hp
      · exact Or.inl (by simp [hp])
      · rcases ih hp with h | h
        · exact Or.inl (List.mem_cons_of_mem _ h)
        · exact Or.inr h

theorem mem_setKV_of_ne {β : Type} (l : List (String × β)) (k : String) (v : β)
    (p : String × β) (hp : p ∈ l) (hne : p.1 ≠ k) : p ∈ setKV l k v := by
  induction l with
  | nil => cases hp
  | cons q rest ih =>
    obtain ⟨k0, v0⟩ := q
    rcases List.mem_cons.1 hp with h | h
    · subst h
      have : k0 ≠ k := hne
      simp [setKV, this]
    · by_cases h0 : k0 = k
      · subst h0
        simp only [setKV, eq_self_iff_true, if_true, List.mem_cons]
        exact Or.inr h
      · simp only [setKV, if_neg h0, List.mem_cons]
        exact Or.inr (ih h)

theorem getKV_mem {β : Type} (l : List (String × β)) (k : String) (v : β)
    (h : getKV l k = some v) : (k, v) ∈ l := by
  induction l with
  | nil => simp [getKV] at h
  | cons q rest ih =>
    obtain ⟨k0, v0⟩ := q
    by_cases h0 : k0 = k
    · subst h0
      simp only [getKV, eq_self_iff_true, if_true, Option.some.injEq] at h
      subst h
      exact List.mem_cons_self _ _
    · simp only [getKV, if_neg h0] at h
      exact List.mem_cons_of_mem _ (ih h)

theorem toolsOf_setKV_ne (fields : Obj) (k : String) (v : JVal)
    (h : k ≠ "tools") : toolsOf (setKV fields k v) = toolsOf fields := by
  unfold toolsOf
  rw [getKV_setKV_ne fields k "tools" v (Ne.symm h)]

/-- Whether some dict entry of a tools list carries the configured type. -/
def hasWebTool (tools : List JVal) : Bool :=
  tools.any fun t =>
    match t with
    | .jobj f => isStrEq (dictGet f "type") webSearchType
    | _ => false

/-- Whether every dict entry of a tools list has a hashable type value,
so that the set comprehension of the source cannot raise. -/
def allTypesHashable (tools : List JVal) : Bool :=
  tools.all fun t =>
    match t with
    | .jobj f => hashable (dictGet f "type")
    | _ => true

/-- Number of entries of a tools list of the configured type. -/
def countToolType (tools : List JVal) : Nat :=
  tools.countP fun t =>
    match t with
    | .jobj f => isStrEq (dictGet f "type") webSearchType
    | _ => false

theorem scanToolTypes_eq_ok (tools : List JVal)
    (h : allTypesHashable tools = true) :
    scanToolTypes tools = .ok (hasWebTool tools) := by
  induction tools with
  | nil => rfl
  | cons t rest ih =>
    rw [allTypesHashable, List.all_cons, Bool.and_eq_true] at h
    obtain ⟨h1, h2⟩ := h
    have ihr := ih h2
    cases t <;> simp_all [scanToolTypes, hasWebTool, List.any_cons]

theorem hasWebTool_iff_countP (tools : List JVal) :
    hasWebTool tools = true ↔ 0 < countToolType tools := by
  unfold hasWebTool countToolType
  rw [List.any_eq_true, List.countP_pos_iff]

theorem injectTools_of_present (fields : Obj)
    (hs : scanToolTypes (toolsOf fields) = .ok true) :
    injectTools fields = .ok fields := by
  simp [injectTools, ENABLE_WEB_SEARCH, hs]

theorem injectTools_frame (fields fields2 : Obj)
    (h : injectTools fields = .ok fields2) :
    ∀ n, n ≠ "tools" → getKV fields2 n = getKV fields n := by
  intro n hn
  unfold injectTools at h
  simp only [ENABLE_WEB_SEARCH, if_true] at h
  cases hscan : scanToolTypes (toolsOf fields) with
  | error e => rw [hscan] at h; cases h
  | ok b =>
    rw [hscan] at h
    cases b with
    | true => cases h; rfl
    | false =>
      cases h
      exact getKV_setKV_ne fields "tools" n _ hn

/-- The transformed field list of a matched model: the model is
rewritten, and the configured tool is appended unless already present. -/
def mappedFields (fields : Obj) (target : String) : Obj :=
  if hasWebTool (toolsOf fields) then
    setKV fields "model" (.jstr target)
  else
    setKV (setKV fields "model" (.jstr target)) "tools"
      (.jarr (toolsOf fields ++ [ZENMUX_WEB_SEARCH_TOOL]))

theorem modify_mapped (fields : Obj) (s target : String)
    (hm : getKV fields "model" = some (.jstr s))
    (ht : mapLookup s = some target)
    (hh : allTypesHashable (toolsOf fields) = true) :
    modify_anthropic_body (.jobj fields)
      = .ok (.jobj (mappedFields fields target), .jnull) := by
  have hts : toolsOf (setKV fields "model" (.jstr target)) = toolsOf fields :=
    toolsOf_setKV_ne fields "model" (.jstr target) (by decide)
  have hscan : scanToolTypes (toolsOf fields) = .ok (hasWebTool (toolsOf fields)) :=
    scanToolTypes_eq_ok _ hh
  have hd : dictGet fields "model" = .jstr s := by
    simp [dictGet, hm]
  have hinj : injectTools (setKV fields "model" (.jstr target))
      = .ok (mappedFields fields target) := by
    unfold injectTools mappedFields
    rw [hts, hscan]
    cases hw : hasWebTool (toolsOf fields) <;>
      simp [ENABLE_WEB_SEARCH, hw]
  simp only [modify_anthropic_body]
  rw [hd]
  simp [ht, hinj]

theorem modify_unmatched (fields : Obj) (s : String)
    (hm : getKV fields "model" = some (.jstr s))
    (hn : mapLookup s = none) :
    modify_anthropic_body (.jobj fields) = .ok (.jobj fields, .jstr s) := by
  have hd : dictGet fields "model" = .jstr s := by
    simp [dictGet, hm]
  simp only [modify_anthropic_body]
  rw [hd]
  simp [hn]

theorem map_values_unmapped :
    ∀ p ∈ ANTHROPIC_MODEL_MAP, mapLookup p.2 = none := by
  decide

theorem mapLookup_value_none (s t : String) (h : mapLookup s = some t) :
    mapLookup t = none :=
  map_values_unmapped (s, t) (getKV_mem ANTHROPIC_MODEL_MAP s t h)

theorem anthropic_events_cases (parsed : Option JVal) (env : UpstreamEnv) :
    (handle_anthropic_messages parsed env).events = []
  ∨ (handle_anthropic_messages parsed env).events = [.openConn, .closeConn] := by
  unfold handle_anthropic_messages
  repeat' split
  all_goals first
    | exact Or.inl rfl
    | exact Or.inr rfl

theorem chat_events_cases (parsed : Option JVal) (env : UpstreamEnv) :
    (handle_chat_completions parsed env).events = []
  ∨ (handle_chat_completions parsed env).events = [.openConn, .closeConn] := by
  unfold handle_chat_completions
  repeat' split
  all_goals first
    | exact Or.inl rfl
    | exact Or.inr rfl

/-- C1: the claim states that an Anthropic-dialect request whose model
is absent or not a key of the mapping table always gets a local 400 and
no upstream request.  The code checks the unmatched model with a Python
truthiness test, so a body with no model field (or an empty-string
model) is forwarded upstream instead of being rejected: with the body
being the empty dict the handler dispatches upstream (an outbound body
is sent and a connection is opened), and likewise for an empty-string
model; a present non-empty unmapped model is rejected as claimed, with
the exact JSON payload. -/
theorem C1_code_divergence :
    (handle_anthropic_messages (some (.jobj [])) okEnv).sent = some (.jobj [])
  ∧ (handle_anthropic_messages (some (.jobj [])) okEnv).events
      = [.openConn, .closeConn]
  ∧ (handle_anthropic_messages (some (.jobj [("model", .jstr "")])) okEnv).sent
      = some (.jobj [("model", .jstr "")])
  ∧ (handle_anthropic_messages (some (.jobj [("model", .jstr "unknown-model")])) okEnv).resp
      = .reject 400 (modelNotFoundBody (.jstr "unknown-model"))
  ∧ modelNotFoundBody (.jstr "unknown-model")
      = "\x7b\"error\": \"Model " ++ singleQuote ++ "unknown-model" ++ singleQuote
        ++ " not found in ANTHROPIC_MODEL_MAP\"\x7d" := by
  refine ⟨rfl, rfl, rfl, rfl, ?_⟩
  decide

/-- C2: on every control path of both dialect handlers the number of
connection-open events equals the number of connection-close events,
and the connection is never closed twice. -/
theorem C2_connection_balance (parsed : Option JVal) (env : UpstreamEnv) :
    ((handle_anthropic_messages parsed env).events.count .openConn
        = (handle_anthropic_messages parsed env).events.count .closeConn
      ∧ (handle_anthropic_messages parsed env).events.count .closeConn ≤ 1)
  ∧ ((handle_chat_completions parsed env).events.count .openConn
        = (handle_chat_completions parsed env).events.count .closeConn
      ∧ (handle_chat_completions parsed env).events.count .closeConn ≤ 1) := by
  rcases anthropic_events_cases parsed env with ha | ha <;>
    rcases chat_events_cases parsed env with hc | hc <;>
      rw [ha, hc] <;> exact ⟨by decide, by decide⟩

/-- C3: when reading from upstream raises no error, the relay yields
exactly the chunks read from upstream, in order, none dropped, merged,
split or reordered. -/
theorem C3_stream_transparency (chunks : List String) :
    stream_generator chunks none = chunks := by
  induction chunks with
  | nil => rfl
  | cons c rest ih => simp [stream_generator, ih]

/-- C8: when reading from upstream raises mid-stream, the relay output
is the chunks read so far followed by exactly one final chunk holding
the textual description of the error, and nothing after it. -/
theorem C8_midstream_error_chunk (chunks : List String) (e : String) :
    stream_generator chunks (some e) = chunks ++ [e] := by
  induction chunks with
  | nil => rfl
  | cons c rest ih => simp [stream_generator, ih]

/-- C10 counterexample: for a JSON-array body the transform does return
the body unchanged with no rejection signal, but the handler then
crashes with AttributeError while reading the model field for logging,
before any client is created — so contrary to the claim the request is
not forwarded upstream. -/
theorem C10_counterexample :
    modify_anthropic_body (.jarr []) = .ok (.jarr [], .jnull)
  ∧ (handle_anthropic_messages (some (.jarr [])) okEnv).resp = .crash .attributeError
  ∧ (handle_anthropic_messages (some (.jarr [])) okEnv).sent = none
  ∧ (handle_anthropic_messages (some (.jarr [])) okEnv).events = [] :=
  ⟨rfl, rfl, rfl, rfl⟩

/-- C10 (amended): for every valid-JSON body that is not an object, the
transform returns it unchanged and signals no rejection, but the
handler raises AttributeError reading the model field before the client
is created, so no upstream request is sent and neither mapping nor
rejection nor tool injection is applied. -/
theorem C10_amended_behavior (v : JVal) (env : UpstreamEnv)
    (h : isObj v = false) :
    modify_anthropic_body v = .ok (v, .jnull)
  ∧ (handle_anthropic_messages (some v) env).resp = .crash .attributeError
  ∧ (handle_anthropic_messages (some v) env).sent = none
  ∧ (handle_anthropic_messages (some v) env).events = [] := by
  cases v <;>
    simp_all [modify_anthropic_body, handle_anthropic_messages, isObj, pyTruthy]

/-- C10 witness: the amended theorem applied to a concrete array body. -/
theorem C10_witness :
    isObj (.jarr [.jnum 1]) = false
  ∧ (handle_anthropic_messages (some (.jarr [.jnum 1])) okEnv).sent = none :=
  ⟨rfl, (C10_amended_behavior (.jarr [.jnum 1]) okEnv rfl).2.2.1⟩

/-- C4 counterexample: the claim says the x-api-key stamp is applied for
the Anthropic dialect only, but the OpenAI chat handler prepares its
outbound headers with the same sanitizer, which also stamps x-api-key
whenever a credential is configured. -/
theorem C4_counterexample :
    getKV (chat_outbound_headers [("host", "example.com"), ("accept", "a")] "secret")
      "x-api-key" = some "secret" := by
  decide

/-- C4 (amended): the sanitizer omits every header whose lowercased name
is excluded and keeps all others; with a configured credential it stamps
authorization and x-api-key, and it does so for both dialect paths. -/
theorem C4_amended_sanitizer (h : List (String × String)) (k : String)
    (hk : k ≠ "") :
    (∀ n v, (n, v) ∈ get_clean_headers h k → isExcluded n = false)
  ∧ (∀ n v, (n, v) ∈ h → isExcluded n = false →
        n ≠ "authorization" → n ≠ "x-api-key" → (n, v) ∈ get_clean_headers h k)
  ∧ getKV (get_clean_headers h k) "authorization" = some ("Bearer " ++ k)
  ∧ getKV (get_clean_headers h k) "x-api-key" = some k
  ∧ getKV (chat_outbound_headers h k) "x-api-key" = some k
  ∧ getKV (anthropic_outbound_headers h k) "x-api-key" = some k := by
  have hg : get_clean_headers h k
      = setKV (setKV (h.filter fun p => !isExcluded p.1)
                     "authorization" ("Bearer " ++ k))
              "x-api-key" k := by
    simp [get_clean_headers, hk]
  have hauth : getKV (get_clean_headers h k) "authorization"
      = some ("Bearer " ++ k) := by
    rw [hg, getKV_setKV_ne _ _ _ _ (by decide : "authorization" ≠ "x-api-key")]
    exact getKV_setKV_self _ _ _
  have hxak : getKV (get_clean_headers h k) "x-api-key" = some k := by
    rw [hg]
    exact getKV_setKV_self _ _ _
  refine ⟨?_, ?_, hauth, hxak, ?_, ?_⟩
  · intro n v hmem
    rw [hg] at hmem
    rcases mem_setKV _ _ _ _ hmem with hm1 | hm1
    · rcases mem_setKV _ _ _ _ hm1 with hm2 | hm2
      · have := (List.mem_filter.1 hm2).2
        simpa using this
      · have hn : n = "authorization" := congrArg Prod.fst hm2
        subst hn
        decide
    · have hn : n = "x-api-key" := congrArg Prod.fst hm1
      subst hn
      decide
  · intro n v hmem hex hna hnx
    rw [hg]
    have h1 : (n, v) ∈ h.filter fun p => !isExcluded p.1 :=
      List.mem_filter.2 ⟨hmem, by simp [hex]⟩
    have h2 := mem_setKV_of_ne _ "authorization" ("Bearer " ++ k) (n, v) h1 hna
    exact mem_setKV_of_ne _ "x-api-key" k (n, v) h2 hnx
  · exact hxak
  · exact hxak

/-- C4 witness: the amended theorem applied to a concrete header map and
credential. -/
theorem C4_witness :
    ("sk" ≠ "")
  ∧ getKV (get_clean_headers [("host", "h"), ("accept", "a")] "sk") "x-api-key"
      = some "sk" :=
  ⟨by decide,
   (C4_amended_sanitizer [("host", "h"), ("accept", "a")] "sk" (by decide)).2.2.2.1⟩

/-- C5: the OpenAI chat transform: a parse failure is treated as the
empty document and the request proceeds; when stream is exactly True
and stream_options is absent, the patch is injected and all other
fields are unchanged; otherwise the body passes through unchanged; the
body sent upstream is exactly the patched body. -/
theorem C5_chat_transform (fields : Obj) (env : UpstreamEnv) :
    (handle_chat_completions none env).sent = some (.jobj [])
  ∧ (isPyTrue (dictGet fields "stream") = true →
       getKV fields "stream_options" = none →
         chat_patch_fields fields = setKV fields "stream_options" usagePatch
       ∧ getKV (chat_patch_fields fields) "stream_options" = some usagePatch
       ∧ ∀ n, n ≠ "stream_options" →
           getKV (chat_patch_fields fields) n = getKV fields n)
  ∧ ((isPyTrue (dictGet fields "stream") = false
        ∨ (getKV fields "stream_options").isSome = true) →
        chat_patch_fields fields = fields)
  ∧ (handle_chat_completions (some (.jobj fields)) env).sent
      = some (.jobj (chat_patch_fields fields)) := by
  refine ⟨?_, ?_, ?_, ?_⟩
  · cases hc : env.connectOk <;>
      simp [handle_chat_completions, hc, chat_patch_fields, dictGet, getKV, isPyTrue]
  · intro h1 h2
    have hp : chat_patch_fields fields = setKV fields "stream_options" usagePatch := by
      simp [chat_patch_fields, h1, h2]
    refine ⟨hp, ?_, ?_⟩
    · rw [hp]
      exact getKV_setKV_self _ _ _
    · intro n hn
      rw [hp]
      exact getKV_setKV_ne _ _ _ _ hn
  · intro h
    rcases h with h | h
    · simp [chat_patch_fields, h]
    · have hn : (getKV fields "stream_options").isNone = false := by
        rcases Option.isSome_iff_exists.1 h with ⟨v, hv⟩
        simp [hv]
      simp [chat_patch_fields, hn]
  · cases hc : env.connectOk <;> simp [handle_chat_completions, hc]

/-- C5 witness: the transform applied to the body of the spec scenario,
stream true with no stream_options. -/
theorem C5_witness :
    isPyTrue (dictGet [("stream", .jbool true)] "stream") = true
  ∧ getKV ([("stream", .jbool true)] : Obj) "stream_options" = none
  ∧ chat_patch_fields [("stream", .jbool true)]
      = setKV ([("stream", .jbool true)] : Obj) "stream_options" usagePatch :=
  ⟨rfl, rfl, ((C5_chat_transform [("stream", .jbool true)] okEnv).2.1 rfl rfl).1⟩

/-- C6: for an Anthropic body whose model is a key of the mapping table
(and whose tools entries have hashable type values, so the set
comprehension of the source cannot raise), the transformed body has the
mapped model, and every field other than model and tools is unchanged. -/
theorem C6_model_mapping (fields : Obj) (s target : String)
    (hm : getKV fields "model" = some (.jstr s))
    (ht : mapLookup s = some target)
    (hh : allTypesHashable (toolsOf fields) = true) :
    modify_anthropic_body (.jobj fields)
      = .ok (.jobj (mappedFields fields target), .jnull)
  ∧ getKV (mappedFields fields target) "model" = some (.jstr target)
  ∧ ∀ n, n ≠ "model" → n ≠ "tools" →
      getKV (mappedFields fields target) n = getKV fields n := by
  refine ⟨modify_mapped fields s target hm ht hh, ?_, ?_⟩
  · unfold mappedFields
    by_cases hw : hasWebTool (toolsOf fields) = true
    · rw [if_pos hw]
      exact getKV_setKV_self _ _ _
    · rw [if_neg hw]
      rw [getKV_setKV_ne _ _ _ _ (by decide : "model" ≠ "tools")]
      exact getKV_setKV_self _ _ _
  · intro n hn1 hn2
    unfold mappedFields
    by_cases hw : hasWebTool (toolsOf fields) = true
    · rw [if_pos hw]
      exact getKV_setKV_ne _ _ _ _ hn1
    · rw [if_neg hw]
      rw [getKV_setKV_ne _ _ _ _ hn2]
      exact getKV_setKV_ne _ _ _ _ hn1

/-- C6 witness: the theorem applied to the body of the spec scenario. -/
theorem C6_witness :
    getKV ([("model", .jstr "claude-opus-4-1-20250805"), ("stream", .jbool false)] : Obj)
      "model" = some (.jstr "claude-opus-4-1-20250805")
  ∧ mapLookup "claude-opus-4-1-20250805" = some "anthropic/claude-opus-4.1"
  ∧ allTypesHashable
      (toolsOf [("model", .jstr "claude-opus-4-1-20250805"), ("stream", .jbool false)]) = true
  ∧ getKV (mappedFields
        [("model", .jstr "claude-opus-4-1-20250805"), ("stream", .jbool false)]
        "anthropic/claude-opus-4.1") "model"
      = some (.jstr "anthropic/claude-opus-4.1") :=
  ⟨rfl, rfl, rfl,
   (C6_model_mapping
      [("model", .jstr "claude-opus-4-1-20250805"), ("stream", .jbool false)]
      "claude-opus-4-1-20250805" "anthropic/claude-opus-4.1" rfl rfl rfl).2.1⟩

/-- C7: tool injection is idempotent: on a body whose tools list already
holds exactly one entry of the configured type, the injection step
leaves the body unchanged; the full transform rewrites only the model;
a second run of the transform finds the mapped identifier absent from
the table and returns the body unchanged, so after running the
transform twice the tools list has exactly one entry of the configured
type. -/
theorem C7_tool_injection (fields : Obj) (tools : List JVal) (s target : String)
    (hm : getKV fields "model" = some (.jstr s))
    (ht : mapLookup s = some target)
    (htools : getKV fields "tools" = some (.jarr tools))
    (hhash : allTypesHashable tools = true)
    (hcount : countToolType tools = 1) :
    injectTools fields = .ok fields
  ∧ modify_anthropic_body (.jobj fields)
      = .ok (.jobj (setKV fields "model" (.jstr target)), .jnull)
  ∧ modify_anthropic_body (.jobj (setKV fields "model" (.jstr target)))
      = .ok (.jobj (setKV fields "model" (.jstr target)), .jstr target)
  ∧ countToolType (toolsOf (setKV fields "model" (.jstr target))) = 1 := by
  have htf : toolsOf fields = tools := by
    unfold toolsOf
    rw [htools]
  have hweb : hasWebTool tools = true :=
    (hasWebTool_iff_countP tools).2 (by omega)
  have hscan : scanToolTypes tools = .ok true := by
    rw [scanToolTypes_eq_ok tools hhash, hweb]
  have hmap : mappedFields fields target = setKV fields "model" (.jstr target) := by
    unfold mappedFields
    rw [htf, if_pos hweb]
  refine ⟨?_, ?_, ?_, ?_⟩
  · refine injectTools_of_present fields ?_
    rw [htf]
    exact hscan
  · rw [← hmap]
    refine modify_mapped fields s target hm ht ?_
    rw [htf]
    exact hhash
  · refine modify_unmatched _ target ?_ ?_
    · exact getKV_setKV_self _ _ _
    · exact mapLookup_value_none s target ht
  · rw [toolsOf_setKV_ne _ _ _ (by decide), htf]
    exact hcount

/-- C7 witness: the theorem applied to a body that already carries the
configured tool once. -/
theorem C7_witness :
    countToolType [ZENMUX_WEB_SEARCH_TOOL] = 1
  ∧ injectTools
      [("model", .jstr "claude-opus-4-6"), ("tools", .jarr [ZENMUX_WEB_SEARCH_TOOL])]
      = .ok [("model", .jstr "claude-opus-4-6"), ("tools", .jarr [ZENMUX_WEB_SEARCH_TOOL])] :=
  ⟨rfl,
   (C7_tool_injection
      [("model", .jstr "claude-opus-4-6"), ("tools", .jarr [ZENMUX_WEB_SEARCH_TOOL])]
      [ZENMUX_WEB_SEARCH_TOOL] "claude-opus-4-6" "anthropic/claude-opus-4.6"
      rfl rfl rfl rfl rfl).1⟩

/-- C9 counterexample: on a connection failure with description boom the
Anthropic dialect handler returns a 502 whose body is Anthropic Proxy
Error followed by the description, which is neither of the two body
forms the claim prescribes for that description. -/
theorem C9_counterexample :
    (handle_anthropic_messages (some (.jobj [("model", .jstr "claude-opus-4-6")]))
       (mkConnFail "boom")).resp
      = .errorResp 502 ("Anthropic Proxy Error: " ++ "boom")
  ∧ "Anthropic Proxy Error: " ++ "boom" ≠ "Connection Error: " ++ "boom"
  ∧ "Anthropic Proxy Error: " ++ "boom" ≠ "Proxy Error: " ++ "boom" := by
  refine ⟨rfl, by decide, by decide⟩

/-- C9 (amended): when establishing the connection or sending raises,
every path closes the connection it opened and returns a local 502 with
a plain-text body: Connection Error prefix on the OpenAI chat path,
Anthropic Proxy Error prefix on the Anthropic messages path, and Proxy
Error prefix on the pass-through forwarder. -/
theorem C9_amended_error_paths (e : String) (fields fields2 : Obj)
    (parsed : Option JVal)
    (hmod : modify_anthropic_body (parsed.getD (.jobj []))
        = .ok (.jobj fields2, .jnull)) :
    ((handle_chat_completions (some (.jobj fields)) (mkConnFail e)).resp
        = .errorResp 502 ("Connection Error: " ++ e)
      ∧ (handle_chat_completions (some (.jobj fields)) (mkConnFail e)).events
        = [.openConn, .closeConn])
  ∧ ((handle_anthropic_messages parsed (mkConnFail e)).resp
        = .errorResp 502 ("Anthropic Proxy Error: " ++ e)
      ∧ (handle_anthropic_messages parsed (mkConnFail e)).events
        = [.openConn, .closeConn])
  ∧ ((proxy_all (mkConnFail e)).1 = .errorResp 502 ("Proxy Error: " ++ e)
      ∧ (proxy_all (mkConnFail e)).2 = [.openConn, .closeConn]) := by
  refine ⟨⟨?_, ?_⟩, ⟨?_, ?_⟩, ⟨?_, ?_⟩⟩
  · simp [handle_chat_completions, mkConnFail]
  · simp [handle_chat_completions, mkConnFail]
  · simp [handle_anthropic_messages, hmod, pyTruthy, mkConnFail]
  · simp [handle_anthropic_messages, hmod, pyTruthy, mkConnFail]
  · simp [proxy_all, mkConnFail]
  · simp [proxy_all, mkConnFail]

/-- C9 witness: the amended theorem applied to a concrete failing
exchange. -/
theorem C9_witness :
    modify_anthropic_body ((some (.jobj [])).getD (.jobj []))
      = .ok (.jobj [], .jnull)
  ∧ (handle_anthropic_messages (some (.jobj [])) (mkConnFail "boom")).resp
      = .errorResp 502 ("Anthropic Proxy Error: " ++ "boom") :=
  ⟨rfl, (C9_amended_error_paths "boom" [] [] (some (.jobj [])) rfl).2.1.1⟩
